import Mathlib

/-!
Shallow embedding of the ayon-toastnotify notification core
(`src/client/ayon_toastnotify/api/notification_manager.py`,
`src/client/ayon_toastnotify/api/client.py`, and the platform modules under
`src/client/ayon_toastnotify/api/platforms/`), together with theorems
settling the specification claims about it.

Python callables, network outcomes and subprocess results are passed in as
explicit parameters; exceptions raised by external code are modelled with
`Except` or boolean flags, and each embedded function mirrors the `try` /
`except` structure of its source line by line.
-/

namespace ToastNotify

/-! Section: action callback registry
(`notification_manager.py` lines 18-39)

`_action_callbacks` is a dict from notification id to a caller-supplied
callable.  A handler is modelled by the observable behaviour the registry
code depends on: whether invoking it with a given action id raises.
`true` means the invocation raises an exception. -/

/-- A registered handler: `h aid = true` iff calling the Python callback
with argument `aid` raises an exception. -/
def Handler : Type := String → Bool

/-- The module-level `_action_callbacks` dict: one entry per notification
id (the lock around it is irrelevant to the sequential claims). -/
def RegistryState : Type := List (String × Handler)

/-- Embeds `register_action_callback(notification_id, callback)`:
`_action_callbacks[notification_id] = callback` — unconditional insert,
overwriting any prior entry for the same id. -/
def register_action_callback (st : RegistryState) (nid : String) (h : Handler) :
    RegistryState :=
  (nid, h) :: st.filter (fun p => p.1 != nid)

/-- Dict lookup `_action_callbacks.get(notification_id)`. -/
def registryGet (st : RegistryState) (nid : String) : Option Handler :=
  (st.find? (fun p => p.1 == nid)).map (fun p => p.2)

/-- Embeds `handle_action_callback(notification_id, action_id)`.

Returns the updated dict, the boolean returned to the caller, and the
list of handler invocations performed (each as `(notification_id,
action_id)`).  Mirrors the source: if a callback is found it is invoked;
only when the invocation returns normally is the entry popped and `True`
returned; an exception from the callback is caught and logged, the `pop`
is skipped (it sits after the call inside the `try`), and `False` is
returned. -/
def handle_action_callback (st : RegistryState) (nid : String) (aid : String) :
    RegistryState × Bool × List (String × String) :=
  match registryGet st nid with
  | none => (st, false, [])
  | some callback =>
    if callback aid then
      -- callback raised: caught, logged, entry NOT removed, returns False
      (st, false, [(nid, aid)])
    else
      (st.filter (fun p => p.1 != nid), true, [(nid, aid)])

/-- A handler that raises on every invocation. -/
def raisingHandler : Handler := fun _ => true

/-- A handler that never raises. -/
def quietHandler : Handler := fun _ => false

/-- Registry state holding only `raisingHandler` under id `"n"`. -/
def raisingState : RegistryState :=
  register_action_callback [] "n" raisingHandler

/-- First resolution of `"n"` against `raisingState`. -/
def raisingStep1 : RegistryState × Bool × List (String × String) :=
  handle_action_callback raisingState "n" "a"

/-- Second resolution of `"n"`, sequenced after the first. -/
def raisingStep2 : RegistryState × Bool × List (String × String) :=
  handle_action_callback raisingStep1.1 "n" "a"

/-- C1: registering a handler that raises when invoked and resolving its id
twice in sequence invokes the handler on BOTH resolutions (two invocations,
not at most one), and the second resolution still finds the handler
registered — refuting the claimed at-most-once semantics.  The pop in
`handle_action_callback` sits after the callback call inside the `try`, so
a raising handler is never removed. -/
theorem c1_registry_double_fire :
    raisingStep1.2.2.length + raisingStep2.2.2.length = 2 ∧
    (registryGet raisingStep1.1 "n").isSome = true ∧
    raisingStep2.2.2 = [("n", "a")] := by
  refine ⟨rfl, rfl, rfl⟩

/-- C2: with the raising handler registered under `"n"` at the time of the
call, `handle_action_callback` returns `false` — not `true` as the claim
requires for a registered id — so the caught exception does change the
returned value; the invocation did happen. -/
theorem c2_resolve_false_despite_registered :
    (registryGet raisingState "n").isSome = true ∧
    raisingStep1.2.1 = false ∧
    raisingStep1.2.2 = [("n", "a")] := by
  refine ⟨rfl, rfl, rfl⟩

/-! Section: notification server, `ToastNotifyHandler.do_POST`
(`notification_manager.py` lines 48-109)

The request body and the environment effects are passed in explicitly:
`readOk` is whether reading `Content-Length` and the body raised (an
exception there is caught only by the outer handler, yielding 500);
`body` is the result of `json.loads`; `dispatch` is
`NotificationManager.show_notification`, which catches every exception of
the platform handler and returns a plain boolean. -/

/-- The parameters extracted from a parsed `/notify` JSON body that the
dispatch depends on. -/
structure NotifyRequest where
  title : String
  message : String
  actions : List (String × String)
deriving Repr, DecidableEq

/-- An HTTP reply sent by the handler: status code, and the `"status"`
field of the JSON body when one is written. -/
structure PostReply where
  status : Nat
  bodyStatus : Option String
deriving Repr, DecidableEq

/-- Embeds `ToastNotifyHandler.do_POST`.  Returns the reply and whether
`show_notification` was invoked.  Mirrors the source: a path other than
`/notify` yields 404; an exception while reading the headers or body is
caught by the outer `except` and yields 500; `json.JSONDecodeError`
yields 400; otherwise the manager dispatches and the reply is
`200 {"status": "success"|"error"}` by the boolean dispatch result. -/
def do_POST (path : String) (readOk : Bool)
    (body : Except Unit NotifyRequest) (dispatch : NotifyRequest → Bool) :
    PostReply × Bool :=
  if path != "/notify" then (⟨404, none⟩, false)
  else if !readOk then (⟨500, none⟩, false)
  else
    match body with
    | .error _ => (⟨400, none⟩, false)
    | .ok req =>
      (⟨200, some (if dispatch req then "success" else "error")⟩, true)

/-- C6: on `POST /notify`, a body that is not valid JSON yields 400; a
valid request is dispatched and yields 200 with body status `"success"`
or `"error"` by the dispatch result; any other exception while handling
(modelled by `readOk = false`) yields 500. -/
theorem c6_do_POST_statuses (req : NotifyRequest)
    (dispatch : NotifyRequest → Bool) (e : Unit) :
    do_POST "/notify" true (.error e) dispatch = (⟨400, none⟩, false) ∧
    do_POST "/notify" true (.ok req) dispatch =
      (⟨200, some (if dispatch req then "success" else "error")⟩, true) ∧
    do_POST "/notify" false (.error e) dispatch = (⟨500, none⟩, false) ∧
    do_POST "/notify" false (.ok req) dispatch = (⟨500, none⟩, false) := by
  refine ⟨rfl, rfl, rfl, rfl⟩

/-! Section: notification client
(`client.py` lines 50-167)

The network is passed in as the decisive outcome of the HTTP exchange;
the retry loop only repeats the same kind of outcome, so a single
`NetResult` captures what `_try_http_notification` observes. -/

/-- Outcome of the HTTP exchange in `_try_http_notification`:
a response with its status code and the parsed `"status"` field of its
JSON body; a connection error (`URLError` / `socket.timeout`) persisting
through the retry; or any other exception inside the `try`. -/
inductive NetResult where
  | response (status : Nat) (bodyStatus : Option String)
  | connError
  | otherError
deriving Repr, DecidableEq

/-- Result of `_try_http_notification`: whether an HTTP request was
actually issued, and the boolean returned. -/
structure HttpTry where
  attempted : Bool
  result : Bool
deriving Repr, DecidableEq

/-- Embeds `ToastNotifyClient._try_http_notification`.  `onAction` is whether an
`on_action` callable was supplied (truthy); `actions` the action list.
Mirrors the source: `if on_action and actions: return False` before any
request is built; a 200 response returns whether the body's `"status"`
equals `"success"`; a non-200 response returns `False`; connection errors
exhaust the retry and return `False`; any other exception is caught and
returns `False`. -/
def try_http_notification (onAction : Bool) (actions : List (String × String))
    (net : NetResult) : HttpTry :=
  if onAction && !actions.isEmpty then ⟨false, false⟩
  else
    match net with
    | .response status bodyStatus =>
      if status == 200 then ⟨true, bodyStatus == some "success"⟩
      else ⟨true, false⟩
    | .connError => ⟨true, false⟩
    | .otherError => ⟨true, false⟩

/-- Trace of one `ToastNotifyClient.send_notification` call. -/
structure SendTrace where
  httpAttempted : Bool
  platformAttempted : Bool
  platformGotHandler : Bool
  result : Bool
deriving Repr, DecidableEq

/-- Embeds `ToastNotifyClient.send_notification`.  `platformAvailable` is whether
the `platform_handler` property yields a handler; `platformOutcome` is
what the handler's `show_notification` does (`.error` = it raised, caught
by the `except` around the fallback).  Mirrors the source: HTTP first;
on a truthy HTTP result return `True`; otherwise fall back to the
platform handler in-process, passing `on_action` through, with any
exception caught and `False` returned. -/
def client_send_notification (onAction : Bool) (actions : List (String × String))
    (net : NetResult) (platformAvailable : Bool)
    (platformOutcome : Except Unit Bool) : SendTrace :=
  let ht := try_http_notification onAction actions net
  if ht.result then ⟨ht.attempted, false, false, true⟩
  else if platformAvailable then
    match platformOutcome with
    | .ok b => ⟨ht.attempted, true, onAction, b⟩
    | .error _ => ⟨ht.attempted, true, onAction, false⟩
  else ⟨ht.attempted, false, false, false⟩

/-- C3 counterexample: a send that carries an action handler but an EMPTY
actions list does attempt HTTP delivery (`if on_action and actions` is
false when `actions` is empty), refuting "regardless of whether the
actions list is empty, the HTTP delivery path is never attempted". -/
theorem c3_empty_actions_http_attempted :
    (client_send_notification true [] (.response 200 (some "success")) true
      (.ok true)).httpAttempted = true := by
  rfl

/-- C3 amended: when a send carries an action handler AND a non-empty
actions list, no HTTP request is issued, and dispatch goes directly to
the in-process platform handler (exactly when one is available) with the
handler passed through. -/
theorem c3_handler_nonempty_actions_skip_http (a : String × String)
    (rest : List (String × String)) (net : NetResult)
    (platformAvailable : Bool) (platformOutcome : Except Unit Bool) :
    (client_send_notification true (a :: rest) net platformAvailable
        platformOutcome).httpAttempted = false ∧
    (client_send_notification true (a :: rest) net platformAvailable
        platformOutcome).platformAttempted = platformAvailable ∧
    (client_send_notification true (a :: rest) net platformAvailable
        platformOutcome).platformGotHandler = platformAvailable := by
  cases platformAvailable <;> cases platformOutcome <;>
    exact ⟨rfl, rfl, rfl⟩

/-- C10: without an action handler the HTTP path is always attempted, and
whenever it yields an unsuccessful result — including a reachable server
answering `200 {"status":"error"}` — the client falls back to the
in-process platform handler; composed with the server model, a request
whose server-side dispatch fails produces exactly that `200` error reply
after the server attempted the dispatch, so the one send drives a second,
client-side dispatch attempt. -/
theorem c10_fallback_after_http_error (actions : List (String × String))
    (net : NetResult) (platformOutcome : Except Unit Bool)
    (req : NotifyRequest) :
    (try_http_notification false actions net).attempted = true ∧
    ((try_http_notification false actions net).result = false →
      (client_send_notification false actions net true
        platformOutcome).platformAttempted = true) ∧
    do_POST "/notify" true (.ok req) (fun _ => false) =
      (⟨200, some "error"⟩, true) ∧
    (try_http_notification false actions (.response 200 (some "error"))).result
      = false ∧
    (client_send_notification false actions (.response 200 (some "error")) true
      platformOutcome).platformAttempted = true := by
  constructor
  · cases net with
    | response s b =>
      simp only [try_http_notification, Bool.false_and, Bool.false_eq_true,
        if_false]
      split <;> rfl
    | connError => rfl
    | otherError => rfl
  constructor
  · intro h
    cases platformOutcome <;>
      simp [client_send_notification, h]
  refine ⟨rfl, ?_, ?_⟩
  · simp [try_http_notification]
  · cases platformOutcome <;> rfl

/-- C10 witness: the theorem instantiated at a concrete send with no
handler, one action button, and a server that accepts the request but
reports a dispatch error. -/
theorem c10_fallback_after_http_error_witness :
    (client_send_notification false [("yes", "Yes")]
      (.response 200 (some "error")) true (.ok true)).platformAttempted
      = true :=
  (c10_fallback_after_http_error [("yes", "Yes")]
    (.response 200 (some "error")) (.ok true)
    ⟨"T", "M", [("yes", "Yes")]⟩).2.1 (by decide)

/-! Section: macOS platform, `_process_alerter_response`
(`platforms/macos.py` lines 291-342)

The helper's response file content is the input; the outcome tracked is
the list of arguments the `on_action` handler is invoked with. -/

/-- Python `str.strip()`: the string with leading and trailing whitespace
removed. -/
def pyStrip (s : String) : String :=
  ⟨((s.data.dropWhile Char.isWhitespace).reverse.dropWhile
      Char.isWhitespace).reverse⟩

/-- Python `s.startswith(pre)`. -/
def pyStartsWith (s pre : String) : Bool :=
  pre.data.isPrefixOf s.data

/-- Embeds `ToastNotifyMacOSPlatform._process_alerter_response`, applied to the
content of an existing response file with a handler supplied
(`hasHandler`).  Returns the arguments passed to `on_action`, in order.
Mirrors the source: the content is stripped (`f.read().strip()`);
`@CLOSED` and `@TIMEOUT` invoke nothing; `@CONTENTCLICKED` invokes the
handler with `"default"`; a response starting with `@ACTIONCLICKED`
invokes the handler with the WHOLE response string; anything else also
invokes the handler with the response string. -/
def process_alerter_response (fileContent : String) (hasHandler : Bool) :
    List String :=
  let response := pyStrip fileContent
  if response == "@CLOSED" || response == "@TIMEOUT" then []
  else if response == "@CONTENTCLICKED" then
    if hasHandler then ["default"] else []
  else if pyStartsWith response "@ACTIONCLICKED" then
    if hasHandler then [response] else []
  else
    if hasHandler then [response] else []

/-- C4 counterexample: a response file containing `@ACTIONCLICKED:yes`
invokes the handler with the full string `"@ACTIONCLICKED:yes"`, not with
the clicked action id `"yes"` — the code never strips the sentinel
prefix. -/
theorem c4_actionclicked_passes_full_string :
    process_alerter_response "@ACTIONCLICKED:yes" true
        = ["@ACTIONCLICKED:yes"] ∧
    process_alerter_response "@ACTIONCLICKED:yes" true ≠ ["yes"] := by
  refine ⟨by decide, by decide⟩

/-- C4 amended: `@CLOSED` and `@TIMEOUT` invoke no handler;
`@CONTENTCLICKED` invokes the supplied handler exactly once with
`"default"`; and a response `@ACTIONCLICKED:<id>` invokes the supplied
handler exactly once, with the FULL response string
`"@ACTIONCLICKED:<id>"` rather than the bare id. -/
theorem c4_alerter_response_dispatch (s : String)
    (htrim : pyStrip s = s) (hpre : pyStartsWith s "@ACTIONCLICKED" = true) :
    process_alerter_response "@CLOSED" true = [] ∧
    process_alerter_response "@TIMEOUT" true = [] ∧
    process_alerter_response "@CONTENTCLICKED" true = ["default"] ∧
    process_alerter_response s true = [s] := by
  refine ⟨by decide, by decide, by decide, ?_⟩
  have h1 : (s == "@CLOSED") = false := by
    cases h : s == "@CLOSED"
    · rfl
    · rw [beq_iff_eq] at h; rw [h] at hpre; exact absurd hpre (by decide)
  have h2 : (s == "@TIMEOUT") = false := by
    cases h : s == "@TIMEOUT"
    · rfl
    · rw [beq_iff_eq] at h; rw [h] at hpre; exact absurd hpre (by decide)
  have h3 : (s == "@CONTENTCLICKED") = false := by
    cases h : s == "@CONTENTCLICKED"
    · rfl
    · rw [beq_iff_eq] at h; rw [h] at hpre; exact absurd hpre (by decide)
  simp [process_alerter_response, htrim, h1, h2, h3, hpre]

/-- C4 witness: the amended theorem applied at the concrete response
`@ACTIONCLICKED:yes`. -/
theorem c4_alerter_response_dispatch_witness :
    pyStrip "@ACTIONCLICKED:yes" = "@ACTIONCLICKED:yes" ∧
    process_alerter_response "@ACTIONCLICKED:yes" true
      = ["@ACTIONCLICKED:yes"] :=
  ⟨by decide,
    (c4_alerter_response_dispatch "@ACTIONCLICKED:yes" (by decide)
      (by decide)).2.2.2⟩

/-! Section: Linux platform dispatch
(`platforms/linux_generic.py` lines 29-75 and
`notification_manager.py` lines 268-295)

`ToastNotifyLinuxPlatform.show_notification` declares only
`(self, title, message, icon, timeout, actions)` — no `on_action`
parameter and no `**kwargs` — while `NotificationManager.show_notification`
always calls the handler with an `on_action=` keyword.  Python's calling
convention (an unexpected keyword raises `TypeError` before the body
runs) is embedded explicitly. -/

/-- The keyword parameters `ToastNotifyLinuxPlatform.show_notification`
accepts (besides `self`). -/
def linux_show_params : List String :=
  ["title", "message", "icon", "timeout", "actions"]

/-- Whether the Linux `show_notification` signature has a `**kwargs`
catch-all.  It does not. -/
def linux_show_accepts_kwargs : Bool := false

/-- The keyword arguments `NotificationManager.show_notification` passes
to the platform handler, before any platform-specific options. -/
def manager_call_keywords : List String :=
  ["title", "message", "icon", "timeout", "actions", "on_action"]

/-- Python call semantics: the call binds iff every supplied keyword is a
declared parameter or the callee takes `**kwargs`; otherwise `TypeError`
is raised before the callee's body runs. -/
def pyKeywordCallBinds (params : List String) (acceptsKwargs : Bool)
    (keywords : List String) : Bool :=
  keywords.all (fun k => params.contains k || acceptsKwargs)

/-- Observable outcome of one Linux dispatch. -/
structure LinuxDispatchTrace where
  result : Bool
  notifySendSpawned : Bool
  handlerInvocations : Nat
deriving Repr, DecidableEq

/-- Body of `ToastNotifyLinuxPlatform.show_notification`: fails when
`notify-send` is unavailable; otherwise spawns `notify-send` and returns
success iff its exit code is 0.  No handler is ever invoked (the body
has no callback at all). -/
def linux_show_notification (notifySendAvailable : Bool) (exitCode : Int) :
    LinuxDispatchTrace :=
  if !notifySendAvailable then ⟨false, false, 0⟩
  else if exitCode != 0 then ⟨false, true, 0⟩
  else ⟨true, true, 0⟩

/-- Embeds `NotificationManager.show_notification` dispatching to the Linux
platform handler.  `extraOptionKeys` are the platform-specific option
keys forwarded as `**platform_specific_options`.  The manager always
passes `on_action=callback`; if the call does not bind, the `TypeError`
is caught by the manager's `except`, which logs and returns `False`
without the platform body ever running. -/
def manager_show_notification_linux (extraOptionKeys : List String)
    (notifySendAvailable : Bool) (exitCode : Int) : LinuxDispatchTrace :=
  if pyKeywordCallBinds linux_show_params linux_show_accepts_kwargs
      (manager_call_keywords ++ extraOptionKeys) then
    linux_show_notification notifySendAvailable exitCode
  else ⟨false, false, 0⟩

/-- C5: every dispatch through `NotificationManager.show_notification` to
the Linux platform returns `false` without ever spawning `notify-send`,
whatever the exit code would have been — the `on_action=` keyword the
manager always passes is not accepted by the Linux `show_notification`
signature, so the call raises `TypeError` (caught, logged, `False`).
This refutes "returns success or failure based solely on the exit code of
the spawned notification utility process". -/
theorem c5_linux_dispatch_always_fails (notifySendAvailable : Bool)
    (exitCode : Int) :
    manager_show_notification_linux [] notifySendAvailable exitCode
      = ⟨false, false, 0⟩ ∧
    pyKeywordCallBinds linux_show_params linux_show_accepts_kwargs
      manager_call_keywords = false := by
  refine ⟨rfl, by decide⟩

/-! Section: port allocator, `get_toast_notify_port`
(`notification_manager.py` lines 299-331) -/

/-- Python `random.randint(a, b)`: a uniform integer `N` with
`a ≤ N ≤ b` — both endpoints INCLUDED.  `draw` selects which of the
`b - a + 1` possible values is produced. -/
def randint (a b : Nat) (draw : Nat) : Nat :=
  a + draw % (b - a + 1)

/-- Embeds `get_toast_notify_port(settings)`.  `useFixedPort` is
`settings.get("use_fixed_port", False) is True`; `httpPortSetting` the
`"http_port"` entry; `bindResult` the outcome of binding the transient
socket to port 0 (`.ok p` = the OS-assigned ephemeral port, `.error` =
the bind raised); `draw` feeds the `random.randint(10000, 65000)`
fallback. -/
def get_toast_notify_port (useFixedPort : Bool) (httpPortSetting : Option Nat)
    (bindResult : Except Unit Nat) (draw : Nat) : Nat :=
  if useFixedPort then httpPortSetting.getD 5127
  else
    match bindResult with
    | .ok p => p
    | .error _ => randint 10000 65000 draw

/-- C7 counterexample: when binding fails, the draw selecting the last of
the 55001 values of `random.randint(10000, 65000)` yields port 65000,
which is NOT strictly less than 65000 — `randint` includes both
endpoints, so the range is the closed interval [10000, 65000]. -/
theorem c7_fallback_port_can_be_65000 :
    get_toast_notify_port false none (.error ()) 55000 = 65000 ∧
    ¬ get_toast_notify_port false none (.error ()) 55000 < 65000 := by
  refine ⟨by decide, by decide⟩

/-- C7 amended: in non-fixed-port mode with a failed bind, the returned
port is a random integer in the CLOSED range [10000, 65000]: at least
10000 and at most 65000. -/
theorem c7_fallback_port_range (httpPortSetting : Option Nat) (e : Unit)
    (draw : Nat) :
    10000 ≤ get_toast_notify_port false httpPortSetting (.error e) draw ∧
    get_toast_notify_port false httpPortSetting (.error e) draw ≤ 65000 := by
  have h : draw % 55001 < 55001 := Nat.mod_lt _ (by decide)
  constructor
  · exact Nat.le_add_right 10000 _
  · simp only [get_toast_notify_port, if_false, Bool.false_eq_true, randint]
    omega

/-! Section: macOS cleanup and process survival
(`platforms/macos.py` lines 260-289) -/

/-- Trace of one `ToastNotifyMacOSPlatform.cleanup` call.
`terminateFailures` counts the active processes whose termination raised
(each is caught and logged); `forcedExit` records whether `os._exit(0)`
was reached. -/
structure CleanupTrace where
  cleanupEventSet : Bool
  activeProcessesCleared : Bool
  activeThreadsCleared : Bool
  forcedExit : Bool
deriving Repr, DecidableEq

/-- Embeds `ToastNotifyMacOSPlatform.cleanup`.  Sets the cleanup event,
terminates processes and joins threads with every exception caught and
logged, clears both lists, and then — unconditionally, whether or not any
error occurred — calls `os._exit(0)` whenever `platform.system()` is
`"Darwin"`. -/
def macos_cleanup (systemName : String) (terminateFailures : Nat) :
    CleanupTrace :=
  let _ := terminateFailures
  ⟨true, true, true, systemName == "Darwin"⟩

/-- C8 counterexample: the macOS cleanup, even when an error occurred
while terminating a helper process, reaches `os._exit(0)` on Darwin and
terminates the hosting process — the worst case of this core operation is
process death, not a logged `false`. -/
theorem c8_darwin_cleanup_exits_process :
    (macos_cleanup "Darwin" 1).forcedExit = true := by
  decide

/-- C8 amended: no error in port allocation, server request handling,
client send, or platform dispatch terminates the hosting process — each
error is absorbed into a `false` result or an HTTP error reply — but the
macOS platform cleanup force-exits the hosting process (`os._exit(0)`)
exactly when the OS reports `"Darwin"`, errors or no errors. -/
theorem c8_errors_never_exit_except_darwin_cleanup (systemName : String)
    (terminateFailures : Nat) (draw : Nat)
    (actions : List (String × String)) (dispatch : NotifyRequest → Bool)
    (e : Unit) :
    (macos_cleanup systemName terminateFailures).forcedExit
      = (systemName == "Darwin") ∧
    10000 ≤ get_toast_notify_port false none (.error e) draw ∧
    (do_POST "/notify" false (.error e) dispatch).1.status = 500 ∧
    (client_send_notification false actions .connError true
      (.error e)).result = false ∧
    (client_send_notification false actions .connError false
      (.error e)).result = false ∧
    (manager_show_notification_linux [] true 0).result = false := by
  refine ⟨rfl, Nat.le_add_right 10000 _, rfl, rfl, rfl, rfl⟩

/-! Section: module-level async send wrapper
(`client.py` lines 198-215 and 283-302) -/

/-- Embeds `_send_async(client, ..., callback, on_action)`: runs
`client.send_notification` on the worker thread; its boolean result is
passed to `callback` when one was supplied; an exception is caught and
reported as `callback(False)`.  Returns the list of values the completion
callback is invoked with. -/
def send_async_worker (sendOutcome : Except Unit Bool) (hasCallback : Bool) :
    List Bool :=
  match sendOutcome with
  | .ok result => if hasCallback then [result] else []
  | .error _ => if hasCallback then [false] else []

/-- The module-level `send_notification(...)` wrapper, after port
resolution: with `async_send=True` it starts a daemon thread running
`_send_async` and immediately returns `True`; with `async_send=False` it
returns `client.send_notification` directly (whose exceptions, were any
raised, would propagate — there is no `try` on the synchronous path).
The value is the returned boolean paired with the completion-callback
invocations. -/
def send_notification_module (asyncSend : Bool)
    (sendOutcome : Except Unit Bool) (hasCallback : Bool) :
    Except Unit (Bool × List Bool) :=
  if asyncSend then .ok (true, send_async_worker sendOutcome hasCallback)
  else
    match sendOutcome with
    | .ok result => .ok (result, [])
    | .error e => .error e

/-- C9: with `async_send=True` the wrapper returns `True` no matter what
the delivery later does — success, failure, or an exception in the worker
— and the actual boolean delivery outcome reaches the caller only through
the optional completion callback (`[result]` when a callback was
supplied, nothing otherwise). -/
theorem c9_async_send_returns_true (sendOutcome : Except Unit Bool)
    (hasCallback : Bool) :
    send_notification_module true sendOutcome hasCallback
      = .ok (true,
          if hasCallback then
            [match sendOutcome with | .ok r => r | .error _ => false]
          else []) := by
  cases sendOutcome <;> cases hasCallback <;> rfl

end ToastNotify
